import Mathlib

/-
Verification of the orbit-prediction and filtering pipeline of the
photos-satellite-spying repository (src/show_all.py,
src/show_satellites_trajectories.py, src/config.py) against its
natural-language specification.

Modelling conventions (shallow embedding):

* A UTC instant is an integer number of seconds since an arbitrary epoch
  (`Int`).  A Python `datetime` is such an integer, and
  `timedelta(minutes=m)` adds `60 * m` seconds.  Sub-second components
  are not modelled; none of the verified behaviour depends on them.
* Python `int(x / y)` on integer inputs is truncation towards zero,
  modelled by `Int.tdiv`; `x / 0` raises `ZeroDivisionError`, modelled by
  `Except.error "ZeroDivisionError"`.
* Real-valued satellite data (degrees, kilometres, metres) are modelled
  by `ℚ`; the pipeline only compares and copies those values, it never
  computes with them.
* The external collaborators are parameters of the definitions:
  `propagate` models `sat.at(times).subpoint()` and is `none` exactly
  when skyfield raises on the satellite's element set; `fetch` models
  `fetch_tle` and is `none` for its `(None, None, None)` return.
* A Python exception escaping a function is modelled by `Except.error`;
  a partially built dict lost to an exception never escapes, so it does
  not appear in the result type.
* Python dicts keyed by satellite name are modelled as association
  lists in insertion order.
-/

/-- Time grid of `generate_time_steps` in src/show_all.py (lines 47-73):
`total_steps = int((days * 24 * 60) / step_minutes) + 1`,
`minutes_array = step_minutes * np.arange(total_steps)`, and instants
`start_time + timedelta(minutes=int(m))`.  The `Except.error` case models
the `ZeroDivisionError` raised by the division when `step_minutes = 0`;
no other input is rejected by the source. -/
def generate_time_steps (start_time days step_minutes : Int) :
    Except String (List Int) :=
  if step_minutes = 0 then .error "ZeroDivisionError"
  else
    let total_steps := (days * 24 * 60).tdiv step_minutes + 1
    .ok ((List.range total_steps.toNat).map
      (fun (i : Nat) => start_time + 60 * (step_minutes * (i : Int))))

/-- Time grid of `generate_time_steps` in src/show_satellites_trajectories.py
(lines 39-56): the same step count, but the instants are rebuilt from the
calendar components of `start_time` down to the minute
(`ts.utc(year, month, day, hour, minute + step_minutes * np.arange(total_steps))`),
which silently truncates `start_time` to the whole minute below it. -/
def generate_time_steps_traj (start_time days step_minutes : Int) :
    Except String (List Int) :=
  if step_minutes = 0 then .error "ZeroDivisionError"
  else
    let total_steps := (days * 24 * 60).tdiv step_minutes + 1
    .ok ((List.range total_steps.toNat).map
      (fun (i : Nat) => 60 * (start_time / 60) + 60 * (step_minutes * (i : Int))))

/-- One geodetic subpoint as returned by skyfield:
`subpoint.latitude.degrees`, `subpoint.longitude.degrees`,
`subpoint.elevation.m`, `subpoint.elevation.km`. -/
structure Subpoint where
  latitude : ℚ
  longitude : ℚ
  elevation_m : ℚ
  elevation_km : ℚ
deriving DecidableEq

/-- A satellite as built in `main`: `EarthSatellite(line1, line2, name, ts)`. -/
structure EarthSatellite where
  name : String
  line1 : String
  line2 : String
deriving DecidableEq

/-- The per-satellite dict of five parallel arrays built by
`collect_satellite_data` in src/show_all.py (lines 99-124). -/
@[ext]
structure SatData where
  latitude : List ℚ
  longitude : List ℚ
  elevation_m : List ℚ
  altitude_km : List ℚ
  times : List Int
deriving DecidableEq

/-- Numpy boolean-mask indexing `arr[mask]` (and the equivalent list
comprehension used for `filtered_times` on line 103): keep the entries
whose mask bit is `true`. -/
def maskFilter {α : Type _} : List Bool → List α → List α
  | b :: ms, x :: xs => if b then x :: maskFilter ms xs else maskFilter ms xs
  | _, _ => []

/-- The unfiltered entry built on lines 116-122 of src/show_all.py: the five
parallel arrays evaluated over the whole time grid, in grid order. -/
def satDataAll (sp : Int → Subpoint) (times : List Int) : SatData where
  latitude := times.map fun t => (sp t).latitude
  longitude := times.map fun t => (sp t).longitude
  elevation_m := times.map fun t => (sp t).elevation_m
  altitude_km := times.map fun t => (sp t).elevation_km
  times := times

/-- The boolean mask `alt_km <= MAX_ALTITUDE_KM` of line 101. -/
def altMask (max_altitude_km : ℚ) (d : SatData) : List Bool :=
  d.altitude_km.map fun a => decide (a ≤ max_altitude_km)

/-- The filtered entry of lines 103-110: every one of the five parallel
arrays indexed by the common altitude mask. -/
def altitudeFilter (max_altitude_km : ℚ) (d : SatData) : SatData where
  latitude := maskFilter (altMask max_altitude_km d) d.latitude
  longitude := maskFilter (altMask max_altitude_km d) d.longitude
  elevation_m := maskFilter (altMask max_altitude_km d) d.elevation_m
  altitude_km := maskFilter (altMask max_altitude_km d) d.altitude_km
  times := maskFilter (altMask max_altitude_km d) d.times

/-- The loop body of `collect_satellite_data` for one satellite whose
propagation succeeded: the entry stored into the dict, or `none` when
filtering is on and `np.any(mask)` is false (lines 99-123). -/
def collectEntry (max_altitude_km : ℚ) (sp : Int → Subpoint) (times : List Int)
    (filter_altitude : Bool) : Option SatData :=
  if filter_altitude then
    if (altMask max_altitude_km (satDataAll sp times)).any id then
      some (altitudeFilter max_altitude_km (satDataAll sp times))
    else none
  else some (satDataAll sp times)

/-- `collect_satellite_data` of src/show_all.py (lines 77-124).  `propagate`
models `sat.at(times).subpoint()` for the whole grid: `none` when skyfield
raises on the satellite's element set.  The loop has no exception handler,
so a raised exception propagates out, discarding the partially built dict;
this is the `Except.error` case, carrying the failing satellite's name. -/
def collect_satellite_data (propagate : EarthSatellite → Option (Int → Subpoint))
    (max_altitude_km : ℚ) (satellites : List EarthSatellite) (times : List Int)
    (filter_altitude : Bool) : Except String (List (String × SatData)) :=
  match satellites with
  | [] => .ok []
  | s :: rest =>
    match propagate s with
    | none => .error s.name
    | some sp =>
      match collect_satellite_data propagate max_altitude_km rest times filter_altitude with
      | .error e => .error e
      | .ok tail =>
        match collectEntry max_altitude_km sp times filter_altitude with
        | some d => .ok ((s.name, d) :: tail)
        | none => .ok tail

/-- The satellite-admission loop of `main` in src/show_all.py
(lines 229-238).  `fetch` models `fetch_tle` (`none` for its
`(None, None, None)` return); a satellite object is built exactly when
both element lines are truthy, i.e. non-empty (`if line1 and line2`). -/
def buildSatellites (fetch : Int → Option (String × String × String))
    (satellite_ids : List Int) : List EarthSatellite :=
  satellite_ids.filterMap fun sat_id =>
    match fetch sat_id with
    | none => none
    | some (nm, l1, l2) => if l1 ≠ "" ∧ l2 ≠ "" then some ⟨nm, l1, l2⟩ else none

/-- `main` of src/show_all.py (lines 219-266) up to plotting: admission of
fetched satellites, the early return when none were admitted
(`.ok none`, "No satellites to track"), then the filtered collection
(line 246) followed by the unfiltered collection (line 250) over the same
satellites and times (`.ok (some (filtered, unfiltered))`).  An uncaught
propagation exception aborts the whole run (`.error`). -/
def mainRun (fetch : Int → Option (String × String × String))
    (propagate : EarthSatellite → Option (Int → Subpoint)) (max_altitude_km : ℚ)
    (satellite_ids : List Int) (times : List Int) :
    Except String (Option (List (String × SatData) × List (String × SatData))) :=
  let satellites := buildSatellites fetch satellite_ids
  if satellites.isEmpty then .ok none
  else
    match collect_satellite_data propagate max_altitude_km satellites times true with
    | .error e => .error e
    | .ok filtered_data =>
      match collect_satellite_data propagate max_altitude_km satellites times false with
      | .error e => .error e
      | .ok all_data => .ok (some (filtered_data, all_data))

/-- The per-instant record view of a `SatData`: the five parallel arrays
zipped positionally into (latitude, longitude, elevation_m, altitude_km,
time) tuples. -/
def SatData.samples (d : SatData) : List (ℚ × ℚ × ℚ × ℚ × Int) :=
  d.latitude.zip (d.longitude.zip (d.elevation_m.zip (d.altitude_km.zip d.times)))

/-- Alignment of the five parallel arrays of a `SatData`: all have the
length of the `times` array. -/
def SatData.Aligned (d : SatData) : Prop :=
  d.latitude.length = d.times.length ∧ d.longitude.length = d.times.length ∧
    d.elevation_m.length = d.times.length ∧ d.altitude_km.length = d.times.length

/-- The original positions selected by a boolean mask, in increasing
order. -/
def maskIndices : List Bool → List Nat
  | [] => []
  | true :: ms => 0 :: (maskIndices ms).map (· + 1)
  | false :: ms => (maskIndices ms).map (· + 1)

/-- Concrete data shared by the example instantiations below. -/
def exSubpointLow : Subpoint := ⟨10, 20, 500000, 500⟩

/-- Concrete subpoint above the 800 km threshold. -/
def exSubpointHigh : Subpoint := ⟨11, 21, 1000000, 1000⟩

/-- Concrete satellite kept below the threshold in the examples. -/
def exSatLow : EarthSatellite := ⟨"LOW", "1L", "2L"⟩

/-- Concrete satellite staying above the threshold in the examples. -/
def exSatHigh : EarthSatellite := ⟨"HIGH", "1H", "2H"⟩

/-- Concrete propagator: the satellite named HIGH flies at 1000 km, every
other satellite at 500 km; no element set is rejected. -/
def exPropagateMix : EarthSatellite → Option (Int → Subpoint) :=
  fun s => if s.name = "HIGH" then some (fun _ => exSubpointHigh)
    else some (fun _ => exSubpointLow)

/-- Concrete propagator that rejects the satellite named BAD, as skyfield
does for a malformed element set, and succeeds elsewhere. -/
def exPropagateSel : EarthSatellite → Option (Int → Subpoint) :=
  fun s => if s.name = "BAD" then none else some (fun _ => exSubpointLow)

/-- Concrete unfiltered entry produced by `exPropagateMix` for LOW on the
one-instant grid `[0]`. -/
def exDataLow : SatData := ⟨[10], [20], [500000], [500], [0]⟩

/-- Concrete unfiltered entry produced by `exPropagateMix` for HIGH on the
one-instant grid `[0]`. -/
def exDataHigh : SatData := ⟨[11], [21], [1000000], [1000], [0]⟩

/-- Concrete five-sample trajectory with the altitudes of the
specification's concrete filtering case. -/
def exTraj : SatData :=
  ⟨[10, 10, 10, 10, 10], [20, 20, 20, 20, 20], [0, 0, 0, 0, 0],
    [500, 900, 750, 1200, 600], [0, 1, 2, 3, 4]⟩

/-- Concrete satellite with a malformed element set in the examples. -/
def exSatBad : EarthSatellite := ⟨"BAD", "1B", "2B"⟩

/-- Concrete fetch that yields a usable element set for every id. -/
def exFetchOne : Int → Option (String × String × String) :=
  fun _ => some ("SAT", "L1", "L2")

/-- Concrete fetch for five configured satellites of which ids 2 and 4
fail, as in the specification's partial-failure scenario. -/
def exFetchMix : Int → Option (String × String × String) := fun i =>
  if i = 1 then some ("A", "l1", "l2")
  else if i = 3 then some ("B", "l1", "l2")
  else if i = 5 then some ("C", "l1", "l2")
  else none

/-- Concrete propagator that raises on every element set. -/
def exPropagateFail : EarthSatellite → Option (Int → Subpoint) := fun _ => none

/-- Concrete propagator that succeeds everywhere at 500 km. -/
def exPropagateLow : EarthSatellite → Option (Int → Subpoint) :=
  fun _ => some (fun _ => exSubpointLow)

/-- Replacing the wildcard match arm: an empty mask selects nothing. -/
theorem maskFilter_nil_left {α : Type _} (xs : List α) : maskFilter [] xs = [] := by
  cases xs <;> rfl

/-- An empty array is selected to nothing. -/
theorem maskFilter_nil_right {α : Type _} (ms : List Bool) :
    maskFilter ms ([] : List α) = [] := by
  cases ms <;> rfl

/-- A true mask bit keeps the entry. -/
theorem maskFilter_cons_true {α : Type _} (ms : List Bool) (x : α) (xs : List α) :
    maskFilter (true :: ms) (x :: xs) = x :: maskFilter ms xs := rfl

/-- A false mask bit drops the entry. -/
theorem maskFilter_cons_false {α : Type _} (ms : List Bool) (x : α) (xs : List α) :
    maskFilter (false :: ms) (x :: xs) = maskFilter ms xs := rfl

/-- Mask selection yields an order-preserving subsequence. -/
theorem maskFilter_sublist {α : Type _} (ms : List Bool) (xs : List α) :
    (maskFilter ms xs).Sublist xs := by
  induction ms generalizing xs with
  | nil => rw [maskFilter_nil_left]; exact List.nil_sublist xs
  | cons b ms ih =>
    cases xs with
    | nil => exact (maskFilter_nil_right (b :: ms)).symm ▸ List.nil_sublist ([] : List α)
    | cons x xs =>
      cases b with
      | false => rw [maskFilter_cons_false]; exact (ih xs).cons x
      | true => rw [maskFilter_cons_true]; exact (ih xs).cons₂ x

/-- Mask selection commutes with zipping. -/
theorem maskFilter_zip {α β : Type _} (ms : List Bool) (xs : List α) (ys : List β) :
    maskFilter ms (xs.zip ys) = (maskFilter ms xs).zip (maskFilter ms ys) := by
  induction ms generalizing xs ys with
  | nil => simp [maskFilter_nil_left]
  | cons b ms ih =>
    cases xs with
    | nil => simp [maskFilter_nil_right, maskFilter_nil_left]
    | cons x xs =>
      cases ys with
      | nil => simp [maskFilter_nil_right]
      | cons y ys =>
        cases b with
        | true => simp [maskFilter_cons_true, ih]
        | false => simp [maskFilter_cons_false, ih]

/-- Selecting a list by the mask of a pointwise test on itself is exactly
`List.filter`. -/
theorem maskFilter_map_eq_filter {α : Type _} (p : α → Bool) (xs : List α) :
    maskFilter (xs.map p) xs = xs.filter p := by
  induction xs with
  | nil => rfl
  | cons x xs ih =>
    cases hx : p x with
    | true => simp [hx, maskFilter_cons_true, List.filter_cons, ih]
    | false => simp [hx, maskFilter_cons_false, List.filter_cons, ih]

/-- Two arrays of the mask's length are selected to results of one common
length. -/
theorem maskFilter_length_eq {α β : Type _} (ms : List Bool) (xs : List α) (ys : List β)
    (hx : ms.length = xs.length) (hy : ms.length = ys.length) :
    (maskFilter ms xs).length = (maskFilter ms ys).length := by
  induction ms generalizing xs ys with
  | nil => simp [maskFilter_nil_left]
  | cons b ms ih =>
    cases xs with
    | nil => simp at hx
    | cons x xs =>
      cases ys with
      | nil => simp at hy
      | cons y ys =>
        simp only [List.length_cons] at hx hy
        cases b with
        | true =>
          rw [maskFilter_cons_true, maskFilter_cons_true]
          simp [ih xs ys (by omega) (by omega)]
        | false =>
          rw [maskFilter_cons_false, maskFilter_cons_false]
          exact ih xs ys (by omega) (by omega)

/-- An everywhere-true mask of the right length selects everything. -/
theorem maskFilter_of_all_true {α : Type _} (ms : List Bool) (xs : List α)
    (h : ∀ b ∈ ms, b = true) (hl : ms.length = xs.length) : maskFilter ms xs = xs := by
  induction ms generalizing xs with
  | nil =>
    cases xs with
    | nil => rfl
    | cons x xs => simp at hl
  | cons b ms ih =>
    cases xs with
    | nil => simp at hl
    | cons x xs =>
      have hb : b = true := h b (by simp)
      subst hb
      rw [maskFilter_cons_true,
        ih xs (fun c hc => h c (by simp [hc])) (by simpa using hl)]

/-- Every selected index is within the mask. -/
theorem maskIndices_lt (ms : List Bool) : ∀ i ∈ maskIndices ms, i < ms.length := by
  induction ms with
  | nil => simp [maskIndices]
  | cons b ms ih =>
    intro i hi
    cases b with
    | true =>
      simp only [maskIndices, List.mem_cons, List.mem_map] at hi
      rcases hi with rfl | ⟨j, hj, rfl⟩
      · simp
      · simpa using Nat.succ_lt_succ (ih j hj)
    | false =>
      simp only [maskIndices, List.mem_map] at hi
      rcases hi with ⟨j, hj, rfl⟩
      simpa using Nat.succ_lt_succ (ih j hj)

/-- Selected indices are strictly increasing. -/
theorem maskIndices_pairwise (ms : List Bool) : (maskIndices ms).Pairwise (· < ·) := by
  induction ms with
  | nil => simp [maskIndices]
  | cons b ms ih =>
    cases b with
    | true =>
      simp only [maskIndices]
      refine List.Pairwise.cons ?_ ?_
      · intro j hj
        simp only [List.mem_map] at hj
        rcases hj with ⟨k, hk, rfl⟩
        omega
      · exact List.pairwise_map.mpr (List.Pairwise.imp (fun h => by omega) ih)
    | false =>
      simp only [maskIndices]
      exact List.pairwise_map.mpr (List.Pairwise.imp (fun h => by omega) ih)

/-- Mask selection reads the original array at the selected indices. -/
theorem maskFilter_eq_filterMap_get {α : Type _} (ms : List Bool) (xs : List α)
    (h : ms.length = xs.length) :
    maskFilter ms xs = (maskIndices ms).filterMap (fun i => xs.get? i) := by
  induction ms generalizing xs with
  | nil => simp [maskFilter_nil_left, maskIndices]
  | cons b ms ih =>
    cases xs with
    | nil => simp at h
    | cons x xs =>
      simp only [List.length_cons] at h
      cases b with
      | true =>
        rw [maskFilter_cons_true, ih xs (by omega)]
        simp [maskIndices, List.filterMap_cons, List.filterMap_map, Function.comp_def]
      | false =>
        rw [maskFilter_cons_false, ih xs (by omega)]
        simp [maskIndices, List.filterMap_map, Function.comp_def]

/-- Reading an array at in-range indices yields one value per index. -/
theorem filterMap_get_length {α : Type _} (I : List Nat) (xs : List α)
    (h : ∀ i ∈ I, i < xs.length) :
    (I.filterMap fun i => xs.get? i).length = I.length := by
  induction I with
  | nil => rfl
  | cons i I ih =>
    have hi : i < xs.length := h i (by simp)
    rw [List.filterMap_cons, List.get?_eq_get hi]
    simp only [List.length_cons, ih (fun j hj => h j (by simp [hj]))]

/-- The unfiltered entry is aligned: all five arrays follow the grid. -/
theorem satDataAll_aligned (sp : Int → Subpoint) (times : List Int) :
    (satDataAll sp times).Aligned := by
  simp [satDataAll, SatData.Aligned]

/-- The unfiltered entry has one sample per grid instant. -/
theorem satDataAll_samples_length (sp : Int → Subpoint) (times : List Int) :
    (satDataAll sp times).samples.length = times.length := by
  simp [satDataAll, SatData.samples]

/-- The altitude mask of the unfiltered entry, read off the grid. -/
theorem altMask_satDataAll (m : ℚ) (sp : Int → Subpoint) (times : List Int) :
    altMask m (satDataAll sp times) =
      times.map fun t => decide ((sp t).elevation_km ≤ m) := by
  simp [altMask, satDataAll, List.map_map]

/-- The mask has the length of the altitude array. -/
theorem altMask_length (m : ℚ) (d : SatData) :
    (altMask m d).length = d.altitude_km.length := by
  simp [altMask]

/-- Filtering the record view is masking the samples with the common
altitude mask. -/
theorem altitudeFilter_samples (m : ℚ) (d : SatData) :
    (altitudeFilter m d).samples = maskFilter (altMask m d) d.samples := by
  simp [SatData.samples, altitudeFilter, maskFilter_zip]

/-- The fourth component of a positional zip of five equally long arrays
is the fourth array. -/
theorem zip5_map_alt (la lb lc ld : List ℚ) (le : List Int)
    (h1 : la.length = le.length) (h2 : lb.length = le.length)
    (h3 : lc.length = le.length) (h4 : ld.length = le.length) :
    (la.zip (lb.zip (lc.zip (ld.zip le)))).map (fun s => s.2.2.2.1) = ld := by
  induction le generalizing la lb lc ld with
  | nil =>
    rw [List.length_eq_zero.mp h1, List.length_eq_zero.mp h4]
    simp
  | cons e le ih =>
    cases la with
    | nil => simp at h1
    | cons a la =>
      cases lb with
      | nil => simp at h2
      | cons b lb =>
        cases lc with
        | nil => simp at h3
        | cons c lc =>
          cases ld with
          | nil => simp at h4
          | cons d0 ld =>
            simp only [List.length_cons] at h1 h2 h3 h4
            simp only [List.zip_cons_cons, List.map_cons]
            rw [ih la lb lc ld (by omega) (by omega) (by omega) (by omega)]

/-- The altitude component of the record view of an aligned trajectory is
the altitude array. -/
theorem samples_map_alt (d : SatData) (hA : d.Aligned) :
    d.samples.map (fun s => s.2.2.2.1) = d.altitude_km :=
  zip5_map_alt d.latitude d.longitude d.elevation_m d.altitude_km d.times
    hA.1 hA.2.1 hA.2.2.1 hA.2.2.2

/-- Without filtering, every propagated satellite stores its full entry. -/
theorem collectEntry_false (m : ℚ) (sp : Int → Subpoint) (times : List Int) :
    collectEntry m sp times false = some (satDataAll sp times) := rfl

/-- With filtering, a stored entry is the altitude-filtered full entry and
its mask fired at least once. -/
theorem collectEntry_true_elim (m : ℚ) (sp : Int → Subpoint) (times : List Int)
    (d : SatData) (h : collectEntry m sp times true = some d) :
    d = altitudeFilter m (satDataAll sp times) ∧
      (altMask m (satDataAll sp times)).any id = true := by
  by_cases hmask : (altMask m (satDataAll sp times)).any id = true
  · unfold collectEntry at h
    rw [if_pos rfl, if_pos hmask] at h
    exact ⟨(Option.some.injEq _ _ ▸ h).symm, hmask⟩
  · unfold collectEntry at h
    rw [if_pos rfl, if_neg hmask] at h
    cases h

/-- Equation lemma: a satellite whose propagation raises aborts the
collection loop at once. -/
theorem collect_cons_none (propagate : EarthSatellite → Option (Int → Subpoint))
    (m : ℚ) (s : EarthSatellite) (rest : List EarthSatellite) (times : List Int)
    (flag : Bool) (hp : propagate s = none) :
    collect_satellite_data propagate m (s :: rest) times flag = .error s.name := by
  simp [collect_satellite_data, hp]

/-- Equation lemma: a later exception still aborts the whole collection. -/
theorem collect_cons_some_error (propagate : EarthSatellite → Option (Int → Subpoint))
    (m : ℚ) (s : EarthSatellite) (rest : List EarthSatellite) (times : List Int)
    (flag : Bool) (sp : Int → Subpoint) (e : String) (hp : propagate s = some sp)
    (hrec : collect_satellite_data propagate m rest times flag = .error e) :
    collect_satellite_data propagate m (s :: rest) times flag = .error e := by
  simp [collect_satellite_data, hp, hrec]

/-- Equation lemma: a stored entry is prepended to the rest of the dict. -/
theorem collect_cons_some_entry (propagate : EarthSatellite → Option (Int → Subpoint))
    (m : ℚ) (s : EarthSatellite) (rest : List EarthSatellite) (times : List Int)
    (flag : Bool) (sp : Int → Subpoint) (tail : List (String × SatData)) (d : SatData)
    (hp : propagate s = some sp)
    (hrec : collect_satellite_data propagate m rest times flag = .ok tail)
    (he : collectEntry m sp times flag = some d) :
    collect_satellite_data propagate m (s :: rest) times flag =
      .ok ((s.name, d) :: tail) := by
  simp [collect_satellite_data, hp, hrec, he]

/-- Equation lemma: a satellite with no qualifying sample contributes no
entry. -/
theorem collect_cons_some_skip (propagate : EarthSatellite → Option (Int → Subpoint))
    (m : ℚ) (s : EarthSatellite) (rest : List EarthSatellite) (times : List Int)
    (flag : Bool) (sp : Int → Subpoint) (tail : List (String × SatData))
    (hp : propagate s = some sp)
    (hrec : collect_satellite_data propagate m rest times flag = .ok tail)
    (he : collectEntry m sp times flag = none) :
    collect_satellite_data propagate m (s :: rest) times flag = .ok tail := by
  simp [collect_satellite_data, hp, hrec, he]

/-- The collection loop returns normally exactly when every element set
propagates. -/
theorem collect_ok_iff (propagate : EarthSatellite → Option (Int → Subpoint))
    (m : ℚ) (sats : List EarthSatellite) (times : List Int) (flag : Bool) :
    (∃ res, collect_satellite_data propagate m sats times flag = .ok res) ↔
      ∀ s ∈ sats, propagate s ≠ none := by
  induction sats with
  | nil => simp [collect_satellite_data]
  | cons s rest ih =>
    constructor
    · rintro ⟨res, hres⟩ s0 hs0
      cases hp : propagate s with
      | none => rw [collect_cons_none propagate m s rest times flag hp] at hres; cases hres
      | some sp =>
        cases hrec : collect_satellite_data propagate m rest times flag with
        | error e =>
          rw [collect_cons_some_error propagate m s rest times flag sp e hp hrec] at hres
          cases hres
        | ok tail =>
          rcases List.mem_cons.mp hs0 with rfl | hs0
          · simp [hp]
          · exact (ih.mp ⟨tail, hrec⟩) s0 hs0
    · intro hall
      cases hp : propagate s with
      | none => exact absurd hp (hall s (by simp))
      | some sp =>
        obtain ⟨tail, htail⟩ := ih.mpr fun s0 hs0 => hall s0 (by simp [hs0])
        cases he : collectEntry m sp times flag with
        | some d =>
          exact ⟨(s.name, d) :: tail,
            collect_cons_some_entry propagate m s rest times flag sp tail d hp htail he⟩
        | none =>
          exact ⟨tail, collect_cons_some_skip propagate m s rest times flag sp tail hp htail he⟩

/-- The unfiltered collection keys are exactly the satellite names, in
order. -/
theorem collect_names_false (propagate : EarthSatellite → Option (Int → Subpoint))
    (m : ℚ) (sats : List EarthSatellite) (times : List Int) :
    ∀ res, collect_satellite_data propagate m sats times false = .ok res →
      res.map Prod.fst = sats.map EarthSatellite.name := by
  induction sats with
  | nil =>
    intro res h
    simp only [collect_satellite_data, Except.ok.injEq] at h
    rw [← h]
    rfl
  | cons s rest ih =>
    intro res h
    cases hp : propagate s with
    | none => rw [collect_cons_none propagate m s rest times false hp] at h; cases h
    | some sp =>
      cases hrec : collect_satellite_data propagate m rest times false with
      | error e =>
        rw [collect_cons_some_error propagate m s rest times false sp e hp hrec] at h
        cases h
      | ok tail =>
        rw [collect_cons_some_entry propagate m s rest times false sp tail
          (satDataAll sp times) hp hrec (collectEntry_false m sp times)] at h
        cases h
        simp [ih tail hrec]

/-- Every propagated satellite's full entry is in the unfiltered
collection. -/
theorem collect_mem_false (propagate : EarthSatellite → Option (Int → Subpoint))
    (m : ℚ) (sats : List EarthSatellite) (times : List Int) :
    ∀ res, collect_satellite_data propagate m sats times false = .ok res →
      ∀ s ∈ sats, ∀ sp, propagate s = some sp → (s.name, satDataAll sp times) ∈ res := by
  induction sats with
  | nil => intro res _ s hs; cases hs
  | cons s rest ih =>
    intro res h s0 hs0 sp0 hsp0
    cases hp : propagate s with
    | none => rw [collect_cons_none propagate m s rest times false hp] at h; cases h
    | some sp =>
      cases hrec : collect_satellite_data propagate m rest times false with
      | error e =>
        rw [collect_cons_some_error propagate m s rest times false sp e hp hrec] at h
        cases h
      | ok tail =>
        rw [collect_cons_some_entry propagate m s rest times false sp tail
          (satDataAll sp times) hp hrec (collectEntry_false m sp times)] at h
        cases h
        rcases List.mem_cons.mp hs0 with rfl | hs0
        · rw [hp] at hsp0
          cases hsp0
          exact List.mem_cons_self _ _
        · exact List.mem_cons_of_mem _ (ih tail hrec s0 hs0 sp0 hsp0)

/-- Every entry of a collection result comes from some satellite of the
input list via `collectEntry`. -/
theorem collect_origin (propagate : EarthSatellite → Option (Int → Subpoint))
    (m : ℚ) (sats : List EarthSatellite) (times : List Int) (flag : Bool) :
    ∀ res, collect_satellite_data propagate m sats times flag = .ok res →
      ∀ nm d, (nm, d) ∈ res → ∃ s, s ∈ sats ∧ s.name = nm ∧
        ∃ sp, propagate s = some sp ∧ collectEntry m sp times flag = some d := by
  induction sats with
  | nil =>
    intro res h nm d hd
    simp only [collect_satellite_data, Except.ok.injEq] at h
    rw [← h] at hd
    cases hd
  | cons s rest ih =>
    intro res h nm d hd
    cases hp : propagate s with
    | none => rw [collect_cons_none propagate m s rest times flag hp] at h; cases h
    | some sp =>
      cases hrec : collect_satellite_data propagate m rest times flag with
      | error e =>
        rw [collect_cons_some_error propagate m s rest times flag sp e hp hrec] at h
        cases h
      | ok tl =>
        cases he : collectEntry m sp times flag with
        | some d0 =>
          rw [collect_cons_some_entry propagate m s rest times flag sp tl d0 hp hrec he] at h
          cases h
          rcases List.mem_cons.mp hd with heq | hd
          · cases heq
            exact ⟨s, List.mem_cons_self _ _, rfl, sp, hp, he⟩
          · obtain ⟨s1, hs1, hnm, sp1, hsp1, he1⟩ := ih tl hrec nm d hd
            exact ⟨s1, List.mem_cons_of_mem _ hs1, hnm, sp1, hsp1, he1⟩
        | none =>
          rw [collect_cons_some_skip propagate m s rest times flag sp tl hp hrec he] at h
          cases h
          obtain ⟨s1, hs1, hnm, sp1, hsp1, he1⟩ := ih _ hrec nm d hd
          exact ⟨s1, List.mem_cons_of_mem _ hs1, hnm, sp1, hsp1, he1⟩

/-- C1: for every valid input (`days > 0`, `step_minutes > 0`),
`generate_time_steps` returns a grid of `floor(days*24*60/step_minutes) + 1`
instants whose first element is `start_time` and which is strictly
increasing with consecutive elements spaced exactly `step_minutes` minutes
(`60 * step_minutes` seconds) apart; in particular for `days = 1` and
`step_minutes = 60` the grid has 25 instants and its last instant is
`start_time` plus exactly one day (86400 seconds). -/
theorem claim1_time_grid (start_time days step_minutes : Int)
    (hd : 0 < days) (hs : 0 < step_minutes) :
    ∃ ts, generate_time_steps start_time days step_minutes = .ok ts ∧
      ts.length = ((days * 24 * 60) / step_minutes).toNat + 1 ∧
      ts.head? = some start_time ∧
      (∀ i (h : i + 1 < ts.length),
        ts.get ⟨i, by omega⟩ < ts.get ⟨i + 1, h⟩ ∧
        ts.get ⟨i + 1, h⟩ = ts.get ⟨i, by omega⟩ + 60 * step_minutes) ∧
      (days = 1 → step_minutes = 60 →
        ts.length = 25 ∧ ts.getLast? = some (start_time + 86400)) := by
  have hs0 : step_minutes ≠ 0 := by omega
  have htd : (days * 24 * 60).tdiv step_minutes = (days * 24 * 60) / step_minutes :=
    Int.tdiv_eq_ediv (by positivity) (by omega)
  have hq : 0 ≤ (days * 24 * 60) / step_minutes :=
    Int.ediv_nonneg (by positivity) (by omega)
  have hN : ((days * 24 * 60).tdiv step_minutes + 1).toNat
      = ((days * 24 * 60) / step_minutes).toNat + 1 := by
    rw [htd, Int.toNat_add hq (by norm_num)]
    norm_num
  refine ⟨(List.range ((days * 24 * 60).tdiv step_minutes + 1).toNat).map
      (fun (i : Nat) => start_time + 60 * (step_minutes * (i : Int))), ?_, ?_, ?_, ?_, ?_⟩
  · simp [generate_time_steps, hs0]
  · rw [List.length_map, List.length_range, hN]
  · have hpos : 0 < ((days * 24 * 60).tdiv step_minutes + 1).toNat := by
      rw [hN]
      exact Nat.succ_pos _
    obtain ⟨k, hk⟩ : ∃ k, ((days * 24 * 60).tdiv step_minutes + 1).toNat = k + 1 :=
      ⟨((days * 24 * 60).tdiv step_minutes + 1).toNat - 1,
        (Nat.succ_pred_eq_of_pos hpos).symm⟩
    rw [hk, List.range_succ_eq_map, List.map_cons, List.head?_cons]
    norm_num
  · intro i h
    have hgi : ∀ (j : Nat) (hj : j < ((List.range
        ((days * 24 * 60).tdiv step_minutes + 1).toNat).map
        (fun (i : Nat) => start_time + 60 * (step_minutes * (i : Int)))).length),
        ((List.range ((days * 24 * 60).tdiv step_minutes + 1).toNat).map
          (fun (i : Nat) => start_time + 60 * (step_minutes * (i : Int)))).get ⟨j, hj⟩
          = start_time + 60 * (step_minutes * (j : Int)) := by
      intro j hj
      rw [List.get_eq_getElem, List.getElem_map, List.getElem_range]
    rw [hgi i (by omega), hgi (i + 1) h]
    constructor
    · push_cast
      have h1 : step_minutes * (i : Int) < step_minutes * ((i : Int) + 1) := by
        nlinarith [hs]
      linarith [h1]
    · push_cast
      ring
  · intro h1 h60
    subst h1
    subst h60
    have h25 : (((1 : Int) * 24 * 60).tdiv 60 + 1).toNat = 25 := by decide
    rw [h25]
    refine ⟨by rw [List.length_map, List.length_range], ?_⟩
    rw [show (25 : Nat) = 24 + 1 from rfl, List.range_succ, List.map_append]
    simp

/-- C1 witness: the grid properties instantiated at
`start_time = 0, days = 1, step_minutes = 60`. -/
theorem claim1_time_grid_witness :
    (0 : Int) < 1 ∧ (0 : Int) < 60 ∧
    ∃ ts, generate_time_steps 0 1 60 = .ok ts ∧
      ts.length = (((1 : Int) * 24 * 60) / 60).toNat + 1 ∧
      ts.head? = some 0 ∧
      (∀ i (h : i + 1 < ts.length),
        ts.get ⟨i, by omega⟩ < ts.get ⟨i + 1, h⟩ ∧
        ts.get ⟨i + 1, h⟩ = ts.get ⟨i, by omega⟩ + 60 * 60) ∧
      ((1 : Int) = 1 → (60 : Int) = 60 →
        ts.length = 25 ∧ ts.getLast? = some (0 + 86400)) :=
  ⟨by norm_num, by norm_num, claim1_time_grid 0 1 60 (by norm_num) (by norm_num)⟩

/-- C2 counterexample: `days = 0 ≤ 0` is accepted, not rejected: the code
performs no validation and returns a one-instant grid, so the claimed
`InvalidConfiguration` failure for non-positive `days` does not exist. -/
theorem claim2_counterexample :
    ((0 : Int) ≤ 0) ∧ generate_time_steps 0 0 60 = .ok [0] := by
  constructor
  · norm_num
  · rfl

/-- C2 amended: for non-positive `days` or `step_minutes`,
`generate_time_steps` fails only for `step_minutes = 0`, and then with an
uncaught `ZeroDivisionError` rather than `InvalidConfiguration`; for every
other such input it returns normally with a (possibly empty or one-element)
grid of `max(0, trunc(days*24*60/step_minutes) + 1)` instants. -/
theorem claim2_no_validation (start_time days step_minutes : Int)
    (h : days ≤ 0 ∨ step_minutes ≤ 0) :
    (generate_time_steps start_time days step_minutes = .error "ZeroDivisionError"
      ↔ step_minutes = 0) ∧
    (step_minutes ≠ 0 → ∃ l, generate_time_steps start_time days step_minutes = .ok l ∧
      l.length = ((days * 24 * 60).tdiv step_minutes + 1).toNat) := by
  constructor
  · constructor
    · intro he
      by_contra hne
      simp [generate_time_steps, hne] at he
    · intro h0
      simp [generate_time_steps, h0]
  · intro hne
    refine ⟨(List.range ((days * 24 * 60).tdiv step_minutes + 1).toNat).map
      (fun (i : Nat) => start_time + 60 * (step_minutes * (i : Int))), ?_, ?_⟩
    · simp [generate_time_steps, hne]
    · rw [List.length_map, List.length_range]

/-- C2 witness: the amended behaviour instantiated at
`start_time = 0, days = 0, step_minutes = 60`. -/
theorem claim2_no_validation_witness :
    ((0 : Int) ≤ 0 ∨ (60 : Int) ≤ 0) ∧
    ((generate_time_steps 0 0 60 = .error "ZeroDivisionError" ↔ (60 : Int) = 0) ∧
      ((60 : Int) ≠ 0 → ∃ l, generate_time_steps 0 0 60 = .ok l ∧
        l.length = (((0 : Int) * 24 * 60).tdiv 60 + 1).toNat)) :=
  ⟨Or.inl le_rfl, claim2_no_validation 0 0 60 (Or.inl le_rfl)⟩

/-- C8 counterexample: for a start time 30 seconds past the whole minute
(`days = 1, step_minutes = 60`), the two scripts build different grids:
src/show_satellites_trajectories.py truncates the start to the minute while
src/show_all.py keeps the seconds, so the claimed equality of the two
time-grid constructions fails. -/
theorem claim8_counterexample :
    generate_time_steps_traj 30 1 60 ≠ generate_time_steps 30 1 60 := by
  intro h
  have h3 : (generate_time_steps_traj 30 1 60).toOption
      ≠ (generate_time_steps 30 1 60).toOption := by decide
  exact h3 (congrArg Except.toOption h)

/-- C8 amended: the trajectories-script grid equals the show_all grid
started at `start_time` truncated to the whole minute; for valid windows
the two grids coincide exactly when `start_time` lies on a whole minute. -/
theorem claim8_minute_truncation (start_time days step_minutes : Int) :
    generate_time_steps_traj start_time days step_minutes
      = generate_time_steps (60 * (start_time / 60)) days step_minutes ∧
    (0 < days → 0 < step_minutes →
      ((generate_time_steps_traj start_time days step_minutes
        = generate_time_steps start_time days step_minutes)
        ↔ start_time % 60 = 0)) := by
  constructor
  · rfl
  · intro hd hs
    constructor
    · intro heq
      have hne : step_minutes ≠ 0 := by omega
      have h1 : generate_time_steps (60 * (start_time / 60)) days step_minutes
          = generate_time_steps start_time days step_minutes := heq
      simp only [generate_time_steps, if_neg hne, Except.ok.injEq] at h1
      have h0 : 0 ≤ (days * 24 * 60).tdiv step_minutes :=
        Int.tdiv_nonneg (by positivity) (by omega)
      have hpos : 0 < ((days * 24 * 60).tdiv step_minutes + 1).toNat := by
        obtain ⟨t, ht0, htEq⟩ : ∃ t, 0 ≤ t ∧ (days * 24 * 60).tdiv step_minutes = t :=
          ⟨(days * 24 * 60).tdiv step_minutes, h0, rfl⟩
        rw [htEq]
        omega
      have h3 := congrArg (fun l => l.get? 0) h1
      simp only [List.get?_map, List.get?_range hpos] at h3
      simp at h3
      omega
    · intro hmod
      have h1 : generate_time_steps_traj start_time days step_minutes
          = generate_time_steps (60 * (start_time / 60)) days step_minutes := rfl
      rw [show (60 : Int) * (start_time / 60) = start_time from by omega] at h1
      exact h1

/-- C8 witness: the amended relation instantiated at
`start_time = 30, days = 1, step_minutes = 60`. -/
theorem claim8_minute_truncation_witness :
    (generate_time_steps_traj 30 1 60
      = generate_time_steps (60 * ((30 : Int) / 60)) 1 60) ∧
    ((generate_time_steps_traj 30 1 60 = generate_time_steps 30 1 60)
      ↔ (30 : Int) % 60 = 0) :=
  ⟨(claim8_minute_truncation 30 1 60).1,
    (claim8_minute_truncation 30 1 60).2 (by norm_num) (by norm_num)⟩

/-- C3 counterexample: with satellites BAD (whose element set the
propagator cannot evaluate) and LOW (fine), the collection aborts with the
uncaught exception: the output holds no trajectory at all, in particular
none for the remaining satellite LOW, and no per-satellite
`PropagationFailed` report is produced. -/
theorem claim3_counterexample :
    collect_satellite_data exPropagateSel 800 [exSatBad, exSatLow] [0] false
      = .error "BAD" := by
  rfl

/-- C3 amended: the collection loop has no per-satellite error handling:
it returns a trajectory set exactly when the propagator evaluates every
element set, and a single unpropagatable element set aborts the whole
collection with the uncaught exception, producing no trajectories and no
per-satellite report. -/
theorem claim3_no_isolation (propagate : EarthSatellite → Option (Int → Subpoint))
    (max_altitude_km : ℚ) (satellites : List EarthSatellite) (times : List Int)
    (filter_altitude : Bool) :
    (∃ res, collect_satellite_data propagate max_altitude_km satellites times
      filter_altitude = .ok res) ↔ ∀ s ∈ satellites, propagate s ≠ none :=
  collect_ok_iff propagate max_altitude_km satellites times filter_altitude

/-- C3 witness: the amended equivalence instantiated at the two concrete
satellites BAD and LOW. -/
theorem claim3_no_isolation_witness :
    (∃ res, collect_satellite_data exPropagateSel 800 [exSatBad, exSatLow] [0] false
      = .ok res) ↔ ∀ s ∈ [exSatBad, exSatLow], exPropagateSel s ≠ none :=
  claim3_no_isolation exPropagateSel 800 [exSatBad, exSatLow] [0] false

/-- C7 counterexample: one configured satellite whose element-set fetch
succeeds (so one element set is usable) but whose propagation raises: the
run aborts and produces no trajectory output, so producing no output is
not equivalent to zero usable element sets. -/
theorem claim7_counterexample :
    buildSatellites exFetchOne [1] = [⟨"SAT", "L1", "L2"⟩] ∧
    mainRun exFetchOne exPropagateFail 800 [1] [0] = .error "SAT" := by
  constructor
  · rfl
  · rfl

/-- C7 amended: provided every admitted element set also propagates, the
run never aborts: it produces no trajectory output exactly when zero
element sets were usable, and otherwise produces the filtered and
unfiltered outputs, the unfiltered one keyed by exactly the satellites
whose fetch succeeded, in order; satellites with failed fetches are
skipped.  Without that proviso, an unpropagatable element set also yields
no output (see the counterexample). -/
theorem claim7_usable_satellites (fetch : Int → Option (String × String × String))
    (propagate : EarthSatellite → Option (Int → Subpoint)) (max_altitude_km : ℚ)
    (satellite_ids : List Int) (times : List Int)
    (hprop : ∀ s ∈ buildSatellites fetch satellite_ids, propagate s ≠ none) :
    (mainRun fetch propagate max_altitude_km satellite_ids times = .ok none
      ↔ buildSatellites fetch satellite_ids = []) ∧
    (buildSatellites fetch satellite_ids ≠ [] →
      ∃ fd ad, mainRun fetch propagate max_altitude_km satellite_ids times
          = .ok (some (fd, ad)) ∧
        ad.map Prod.fst
          = (buildSatellites fetch satellite_ids).map EarthSatellite.name) := by
  by_cases hempty : buildSatellites fetch satellite_ids = []
  · constructor
    · constructor
      · intro _
        exact hempty
      · intro _
        simp [mainRun, hempty]
    · intro hne
      exact absurd hempty hne
  · have hie : (buildSatellites fetch satellite_ids).isEmpty = false := by
      cases hb : buildSatellites fetch satellite_ids with
      | nil => exact absurd hb hempty
      | cons a l => rfl
    obtain ⟨fd, hfd⟩ := (collect_ok_iff propagate max_altitude_km
      (buildSatellites fetch satellite_ids) times true).mpr hprop
    obtain ⟨ad, had⟩ := (collect_ok_iff propagate max_altitude_km
      (buildSatellites fetch satellite_ids) times false).mpr hprop
    have hmain : mainRun fetch propagate max_altitude_km satellite_ids times
        = .ok (some (fd, ad)) := by
      simp [mainRun, hie, hfd, had]
    constructor
    · constructor
      · intro hok
        rw [hmain] at hok
        simp at hok
      · intro he
        exact absurd he hempty
    · intro _
      exact ⟨fd, ad, hmain, collect_names_false propagate max_altitude_km
        (buildSatellites fetch satellite_ids) times ad had⟩

/-- C7 witness: the amended behaviour at five configured satellites of
which the fetches of ids 2 and 4 fail and all propagations succeed. -/
theorem claim7_usable_satellites_witness :
    (mainRun exFetchMix exPropagateLow 800 [1, 2, 3, 4, 5] [0] = .ok none
      ↔ buildSatellites exFetchMix [1, 2, 3, 4, 5] = []) ∧
    (∃ fd ad, mainRun exFetchMix exPropagateLow 800 [1, 2, 3, 4, 5] [0]
        = .ok (some (fd, ad)) ∧
      ad.map Prod.fst
        = (buildSatellites exFetchMix [1, 2, 3, 4, 5]).map EarthSatellite.name) :=
  ⟨(claim7_usable_satellites exFetchMix exPropagateLow 800 [1, 2, 3, 4, 5] [0]
      (fun s hs => by simp [exPropagateLow])).1,
    (claim7_usable_satellites exFetchMix exPropagateLow 800 [1, 2, 3, 4, 5] [0]
      (fun s hs => by simp [exPropagateLow])).2 (by decide)⟩

/-- C4: on an aligned trajectory the altitude filter keeps exactly the
samples whose `altitude_km` is at most the threshold (inclusive `≤`, on
the very altitude value of the geodetic conversion), preserving order;
concretely, altitudes `[500, 900, 750, 1200, 600]` km at times
`[0, 1, 2, 3, 4]` with threshold 800 keep original positions `[0, 2, 4]`
with altitudes `[500, 750, 600]`. -/
theorem claim4_filter_keeps (m : ℚ) (d : SatData) (hA : d.Aligned) :
    (altitudeFilter m d).samples
        = d.samples.filter (fun s => decide (s.2.2.2.1 ≤ m)) ∧
    (altitudeFilter 800 exTraj).altitude_km = [500, 750, 600] ∧
    (altitudeFilter 800 exTraj).times = [0, 2, 4] := by
  refine ⟨?_, by decide, by decide⟩
  rw [altitudeFilter_samples]
  have hmask : altMask m d = d.samples.map (fun s => decide (s.2.2.2.1 ≤ m)) := by
    unfold altMask
    rw [← samples_map_alt d hA, List.map_map]
    rfl
  rw [hmask, maskFilter_map_eq_filter]

/-- C4 witness: the filter semantics at the concrete five-sample
trajectory of the specification. -/
theorem claim4_filter_keeps_witness :
    exTraj.Aligned ∧
    ((altitudeFilter 800 exTraj).samples
        = exTraj.samples.filter (fun s => decide (s.2.2.2.1 ≤ 800)) ∧
      (altitudeFilter 800 exTraj).altitude_km = [500, 750, 600] ∧
      (altitudeFilter 800 exTraj).times = [0, 2, 4]) :=
  ⟨⟨rfl, rfl, rfl, rfl⟩, claim4_filter_keeps 800 exTraj ⟨rfl, rfl, rfl, rfl⟩⟩

/-- C9: on an aligned trajectory the altitude filter is idempotent:
re-running it with the same threshold returns the identical record (a
projection, not a mutation). -/
theorem claim9_filter_idempotent (m : ℚ) (d : SatData) (hA : d.Aligned) :
    altitudeFilter m (altitudeFilter m d) = altitudeFilter m d := by
  obtain ⟨h1, h2, h3, h4⟩ := hA
  have hmla : (altMask m d).length = d.altitude_km.length := altMask_length m d
  have hmlat : (altMask m d).length = d.latitude.length := by rw [hmla, h4, h1]
  have hmlon : (altMask m d).length = d.longitude.length := by rw [hmla, h4, h2]
  have hmel : (altMask m d).length = d.elevation_m.length := by rw [hmla, h4, h3]
  have hmtim : (altMask m d).length = d.times.length := by rw [hmla, h4]
  have halt : (altitudeFilter m d).altitude_km
      = d.altitude_km.filter (fun a => decide (a ≤ m)) :=
    maskFilter_map_eq_filter (fun a => decide (a ≤ m)) d.altitude_km
  have hmask2 : ∀ b ∈ altMask m (altitudeFilter m d), b = true := by
    intro b hb
    unfold altMask at hb
    rw [halt] at hb
    simp only [List.mem_map] at hb
    obtain ⟨a, ha, rfl⟩ := hb
    exact (List.mem_filter.mp ha).2
  have hm2 : (altMask m (altitudeFilter m d)).length
      = (altitudeFilter m d).altitude_km.length := altMask_length m (altitudeFilter m d)
  have e1 : (altitudeFilter m d).latitude.length
      = (altitudeFilter m d).altitude_km.length :=
    maskFilter_length_eq (altMask m d) d.latitude d.altitude_km hmlat hmla
  have e2 : (altitudeFilter m d).longitude.length
      = (altitudeFilter m d).altitude_km.length :=
    maskFilter_length_eq (altMask m d) d.longitude d.altitude_km hmlon hmla
  have e3 : (altitudeFilter m d).elevation_m.length
      = (altitudeFilter m d).altitude_km.length :=
    maskFilter_length_eq (altMask m d) d.elevation_m d.altitude_km hmel hmla
  have e5 : (altitudeFilter m d).times.length
      = (altitudeFilter m d).altitude_km.length :=
    maskFilter_length_eq (altMask m d) d.times d.altitude_km hmtim hmla
  refine SatData.ext ?_ ?_ ?_ ?_ ?_
  · exact maskFilter_of_all_true _ _ hmask2 (by rw [hm2, e1])
  · exact maskFilter_of_all_true _ _ hmask2 (by rw [hm2, e2])
  · exact maskFilter_of_all_true _ _ hmask2 (by rw [hm2, e3])
  · exact maskFilter_of_all_true _ _ hmask2 (by rw [hm2])
  · exact maskFilter_of_all_true _ _ hmask2 (by rw [hm2, e5])

/-- C9 witness: idempotence at the concrete five-sample trajectory. -/
theorem claim9_filter_idempotent_witness :
    exTraj.Aligned ∧
    altitudeFilter 800 (altitudeFilter 800 exTraj) = altitudeFilter 800 exTraj :=
  ⟨⟨rfl, rfl, rfl, rfl⟩, claim9_filter_idempotent 800 exTraj ⟨rfl, rfl, rfl, rfl⟩⟩

/-- C5: a satellite none of whose propagated samples lies at or below the
threshold contributes no entry at all to the filtered trajectory set
(entry absence, not an entry holding an empty sequence). -/
theorem claim5_empty_omitted (propagate : EarthSatellite → Option (Int → Subpoint))
    (m : ℚ) (sats : List EarthSatellite) (times : List Int) (nm : String) :
    ∀ res, collect_satellite_data propagate m sats times true = .ok res →
      (∀ s ∈ sats, s.name = nm → ∀ sp, propagate s = some sp →
        ∀ t ∈ times, ¬((sp t).elevation_km ≤ m)) →
      nm ∉ res.map Prod.fst := by
  induction sats with
  | nil =>
    intro res hres _
    simp only [collect_satellite_data, Except.ok.injEq] at hres
    rw [← hres]
    simp
  | cons s rest ih =>
    intro res hres hnone
    cases hp : propagate s with
    | none =>
      rw [collect_cons_none propagate m s rest times true hp] at hres
      cases hres
    | some sp =>
      cases hrec : collect_satellite_data propagate m rest times true with
      | error e =>
        rw [collect_cons_some_error propagate m s rest times true sp e hp hrec] at hres
        cases hres
      | ok tl =>
        have htl : nm ∉ tl.map Prod.fst :=
          ih tl hrec fun s0 hs0 => hnone s0 (List.mem_cons_of_mem s hs0)
        cases he : collectEntry m sp times true with
        | some d0 =>
          rw [collect_cons_some_entry propagate m s rest times true sp tl d0
            hp hrec he] at hres
          cases hres
          simp only [List.map_cons, List.mem_cons]
          rintro (heq | hmem)
          · have hq : ∀ t ∈ times, ¬((sp t).elevation_km ≤ m) :=
              hnone s (List.mem_cons_self s rest) heq.symm sp hp
            have hmaskf : (altMask m (satDataAll sp times)).any id = false := by
              rw [altMask_satDataAll, List.any_eq_false]
              intro b hb
              simp only [List.mem_map] at hb
              obtain ⟨t, ht, rfl⟩ := hb
              simp only [id_eq, decide_eq_true_eq]
              exact hq t ht
            have hnone2 : collectEntry m sp times true = none := by
              unfold collectEntry
              rw [if_pos rfl, if_neg (by simp [hmaskf])]
            rw [hnone2] at he
            cases he
          · exact htl hmem
        | none =>
          rw [collect_cons_some_skip propagate m s rest times true sp tl hp hrec he] at hres
          cases hres
          exact htl

/-- C5 witness: with HIGH permanently above the 800 km threshold and LOW
below it, the filtered set holds no entry keyed HIGH. -/
theorem claim5_empty_omitted_witness :
    (collect_satellite_data exPropagateMix 800 [exSatHigh, exSatLow] [0] true
      = .ok [("LOW", exDataLow)]) ∧
    "HIGH" ∉ ([("LOW", exDataLow)] : List (String × SatData)).map Prod.fst := by
  refine ⟨rfl, ?_⟩
  refine claim5_empty_omitted exPropagateMix 800 [exSatHigh, exSatLow] [0] "HIGH"
    [("LOW", exDataLow)] rfl ?_
  intro s hs hname sp hsp t ht
  fin_cases hs
  · rw [show exPropagateMix exSatHigh = some (fun _ => exSubpointHigh) from rfl] at hsp
    cases hsp
    show ¬(exSubpointHigh.elevation_km ≤ 800)
    decide
  · exact absurd hname (by decide)

/-- C6: the unfiltered collection has one sample per grid instant for every
satellite, and although the filtered and unfiltered sets come from two
separate calls over the same satellites and times, every filtered
trajectory is an order-preserving subsequence, sample for sample, of that
satellite's unfiltered trajectory. -/
theorem claim6_consistency (propagate : EarthSatellite → Option (Int → Subpoint))
    (m : ℚ) (sats : List EarthSatellite) (times : List Int)
    (resF resA : List (String × SatData))
    (hF : collect_satellite_data propagate m sats times true = .ok resF)
    (hA : collect_satellite_data propagate m sats times false = .ok resA) :
    (∀ nm d, (nm, d) ∈ resA → d.samples.length = times.length) ∧
    (∀ nm d, (nm, d) ∈ resF →
      ∃ dA, (nm, dA) ∈ resA ∧ d.samples.Sublist dA.samples) := by
  constructor
  · intro nm d hd
    obtain ⟨s, hs, hnm, sp, hsp, he⟩ :=
      collect_origin propagate m sats times false resA hA nm d hd
    rw [collectEntry_false] at he
    cases he
    exact satDataAll_samples_length sp times
  · intro nm d hd
    obtain ⟨s, hs, hnm, sp, hsp, he⟩ :=
      collect_origin propagate m sats times true resF hF nm d hd
    obtain ⟨hd0, hany⟩ := collectEntry_true_elim m sp times d he
    refine ⟨satDataAll sp times, ?_, ?_⟩
    · have hmem := collect_mem_false propagate m sats times resA hA s hs sp hsp
      rw [hnm] at hmem
      exact hmem
    · rw [hd0, altitudeFilter_samples]
      exact maskFilter_sublist _ _

/-- C6 witness: consistency of the two collection calls at the two
concrete satellites HIGH and LOW on the one-instant grid. -/
theorem claim6_consistency_witness :
    (collect_satellite_data exPropagateMix 800 [exSatHigh, exSatLow] [0] true
      = .ok [("LOW", exDataLow)]) ∧
    (collect_satellite_data exPropagateMix 800 [exSatHigh, exSatLow] [0] false
      = .ok [("HIGH", exDataHigh), ("LOW", exDataLow)]) ∧
    ((∀ nm d, (nm, d) ∈ [("HIGH", exDataHigh), ("LOW", exDataLow)] →
        d.samples.length = ([0] : List Int).length) ∧
      (∀ nm d, (nm, d) ∈ [("LOW", exDataLow)] →
        ∃ dA, (nm, dA) ∈ [("HIGH", exDataHigh), ("LOW", exDataLow)] ∧
          d.samples.Sublist dA.samples)) :=
  ⟨rfl, rfl, claim6_consistency exPropagateMix 800 [exSatHigh, exSatLow] [0]
    [("LOW", exDataLow)] [("HIGH", exDataHigh), ("LOW", exDataLow)] rfl rfl⟩

/-- C10: every entry of a collection result, filtered or not, stores five
parallel arrays of one common length; in the filtered case one strictly
increasing list of original time-grid indices reads all five arrays out of
that satellite's full (unfiltered) arrays, so the parallel arrays stay
index-aligned with each other. -/
theorem claim10_parallel_alignment (propagate : EarthSatellite → Option (Int → Subpoint))
    (m : ℚ) (sats : List EarthSatellite) (times : List Int) (flag : Bool)
    (res : List (String × SatData))
    (hres : collect_satellite_data propagate m sats times flag = .ok res) :
    ∀ nm d, (nm, d) ∈ res →
      (d.latitude.length = d.times.length ∧ d.longitude.length = d.times.length ∧
        d.elevation_m.length = d.times.length ∧ d.altitude_km.length = d.times.length) ∧
      (flag = true → ∃ s sp, ∃ I : List Nat, s ∈ sats ∧ propagate s = some sp ∧
        I.Pairwise (· < ·) ∧ (∀ i ∈ I, i < times.length) ∧
        d.latitude = I.filterMap (fun i => (satDataAll sp times).latitude.get? i) ∧
        d.longitude = I.filterMap (fun i => (satDataAll sp times).longitude.get? i) ∧
        d.elevation_m = I.filterMap (fun i => (satDataAll sp times).elevation_m.get? i) ∧
        d.altitude_km = I.filterMap (fun i => (satDataAll sp times).altitude_km.get? i) ∧
        d.times = I.filterMap (fun i => times.get? i)) := by
  intro nm d hd
  obtain ⟨s, hs, hnm, sp, hsp, he⟩ :=
    collect_origin propagate m sats times flag res hres nm d hd
  cases flag with
  | false =>
    rw [collectEntry_false] at he
    cases he
    constructor
    · simp [satDataAll]
    · intro habs
      exact Bool.noConfusion habs
  | true =>
    obtain ⟨hd0, hany⟩ := collectEntry_true_elim m sp times d he
    subst hd0
    have hml : (altMask m (satDataAll sp times)).length = times.length := by
      rw [altMask_length]
      simp [satDataAll]
    have hIlt : ∀ i ∈ maskIndices (altMask m (satDataAll sp times)), i < times.length := by
      intro i hi
      have h := maskIndices_lt _ i hi
      rw [hml] at h
      exact h
    have hflat : (satDataAll sp times).latitude.length = times.length := by
      simp [satDataAll]
    have hflon : (satDataAll sp times).longitude.length = times.length := by
      simp [satDataAll]
    have hfel : (satDataAll sp times).elevation_m.length = times.length := by
      simp [satDataAll]
    have hfalt : (satDataAll sp times).altitude_km.length = times.length := by
      simp [satDataAll]
    have eqlat : (altitudeFilter m (satDataAll sp times)).latitude
        = (maskIndices (altMask m (satDataAll sp times))).filterMap
            (fun i => (satDataAll sp times).latitude.get? i) :=
      maskFilter_eq_filterMap_get _ _ (by rw [hml, hflat])
    have eqlon : (altitudeFilter m (satDataAll sp times)).longitude
        = (maskIndices (altMask m (satDataAll sp times))).filterMap
            (fun i => (satDataAll sp times).longitude.get? i) :=
      maskFilter_eq_filterMap_get _ _ (by rw [hml, hflon])
    have eqel : (altitudeFilter m (satDataAll sp times)).elevation_m
        = (maskIndices (altMask m (satDataAll sp times))).filterMap
            (fun i => (satDataAll sp times).elevation_m.get? i) :=
      maskFilter_eq_filterMap_get _ _ (by rw [hml, hfel])
    have eqalt : (altitudeFilter m (satDataAll sp times)).altitude_km
        = (maskIndices (altMask m (satDataAll sp times))).filterMap
            (fun i => (satDataAll sp times).altitude_km.get? i) :=
      maskFilter_eq_filterMap_get _ _ (by rw [hml, hfalt])
    have eqtim : (altitudeFilter m (satDataAll sp times)).times
        = (maskIndices (altMask m (satDataAll sp times))).filterMap
            (fun i => times.get? i) :=
      maskFilter_eq_filterMap_get _ _ hml
    have llat : (altitudeFilter m (satDataAll sp times)).latitude.length
        = (maskIndices (altMask m (satDataAll sp times))).length := by
      rw [eqlat]
      exact filterMap_get_length _ _ fun i hi => by rw [hflat]; exact hIlt i hi
    have llon : (altitudeFilter m (satDataAll sp times)).longitude.length
        = (maskIndices (altMask m (satDataAll sp times))).length := by
      rw [eqlon]
      exact filterMap_get_length _ _ fun i hi => by rw [hflon]; exact hIlt i hi
    have lel : (altitudeFilter m (satDataAll sp times)).elevation_m.length
        = (maskIndices (altMask m (satDataAll sp times))).length := by
      rw [eqel]
      exact filterMap_get_length _ _ fun i hi => by rw [hfel]; exact hIlt i hi
    have lalt : (altitudeFilter m (satDataAll sp times)).altitude_km.length
        = (maskIndices (altMask m (satDataAll sp times))).length := by
      rw [eqalt]
      exact filterMap_get_length _ _ fun i hi => by rw [hfalt]; exact hIlt i hi
    have ltim : (altitudeFilter m (satDataAll sp times)).times.length
        = (maskIndices (altMask m (satDataAll sp times))).length := by
      rw [eqtim]
      exact filterMap_get_length _ _ fun i hi => hIlt i hi
    refine ⟨⟨?_, ?_, ?_, ?_⟩, ?_⟩
    · rw [llat, ltim]
    · rw [llon, ltim]
    · rw [lel, ltim]
    · rw [lalt, ltim]
    · intro _
      exact ⟨s, sp, maskIndices (altMask m (satDataAll sp times)), hs, hsp,
        maskIndices_pairwise _, hIlt, eqlat, eqlon, eqel, eqalt, eqtim⟩

/-- C10 witness: the alignment facts at the concrete satellite LOW on the
one-instant grid. -/
theorem claim10_parallel_alignment_witness :
    (collect_satellite_data exPropagateMix 800 [exSatLow] [0] true
      = .ok [("LOW", exDataLow)]) ∧
    (("LOW", exDataLow) ∈ ([("LOW", exDataLow)] : List (String × SatData))) ∧
    ((exDataLow.latitude.length = exDataLow.times.length ∧
        exDataLow.longitude.length = exDataLow.times.length ∧
        exDataLow.elevation_m.length = exDataLow.times.length ∧
        exDataLow.altitude_km.length = exDataLow.times.length) ∧
      (true = true → ∃ s sp, ∃ I : List Nat, s ∈ [exSatLow] ∧
        exPropagateMix s = some sp ∧
        I.Pairwise (· < ·) ∧ (∀ i ∈ I, i < ([0] : List Int).length) ∧
        exDataLow.latitude = I.filterMap (fun i => (satDataAll sp [0]).latitude.get? i) ∧
        exDataLow.longitude = I.filterMap (fun i => (satDataAll sp [0]).longitude.get? i) ∧
        exDataLow.elevation_m
          = I.filterMap (fun i => (satDataAll sp [0]).elevation_m.get? i) ∧
        exDataLow.altitude_km
          = I.filterMap (fun i => (satDataAll sp [0]).altitude_km.get? i) ∧
        exDataLow.times = I.filterMap (fun i => ([0] : List Int).get? i))) :=
  ⟨rfl, by simp, claim10_parallel_alignment exPropagateMix 800 [exSatLow] [0] true
    [("LOW", exDataLow)] rfl "LOW" exDataLow (by simp)⟩
